import Mathlib

/-!
Shallow embedding of the `eve` repository (files `handler.py` and `eve.py`).

Python values that flow through the program (JSON payloads, tool results,
dictionaries) are modelled by the inductive type `Value`.  Python machine
behaviour is modelled as follows: a computation that may raise is a
`Except PyErr Value`; `safe_run` is the decorator of `handler.py`; the
external collaborators (HTTP via `requests`, HTML parsing via
BeautifulSoup, the LLM chat via `ollama`) are fields of an `Env` record,
universally quantified in the theorems.
-/

namespace EveModel

/-- Python/JSON values.  JSON numbers are restricted to integers in this
model; no claim concerns numeric payloads. -/
inductive Value where
  | vNone : Value
  | vBool : Bool → Value
  | vInt : Int → Value
  | vStr : String → Value
  | vList : List Value → Value
  | vDict : List (String × Value) → Value

mutual

/-- Decidable equality for `Value` (the nested inductive defeats
`deriving`). -/
def decEqV : (a b : Value) → Decidable (a = b)
  | .vNone, .vNone => .isTrue rfl
  | .vNone, .vBool _ => .isFalse (fun h => Value.noConfusion h)
  | .vNone, .vInt _ => .isFalse (fun h => Value.noConfusion h)
  | .vNone, .vStr _ => .isFalse (fun h => Value.noConfusion h)
  | .vNone, .vList _ => .isFalse (fun h => Value.noConfusion h)
  | .vNone, .vDict _ => .isFalse (fun h => Value.noConfusion h)
  | .vBool _, .vNone => .isFalse (fun h => Value.noConfusion h)
  | .vBool a, .vBool b =>
    match Bool.decEq a b with
    | .isTrue h => .isTrue (congrArg Value.vBool h)
    | .isFalse h => .isFalse (fun hh => h (Value.vBool.inj hh))
  | .vBool _, .vInt _ => .isFalse (fun h => Value.noConfusion h)
  | .vBool _, .vStr _ => .isFalse (fun h => Value.noConfusion h)
  | .vBool _, .vList _ => .isFalse (fun h => Value.noConfusion h)
  | .vBool _, .vDict _ => .isFalse (fun h => Value.noConfusion h)
  | .vInt _, .vNone => .isFalse (fun h => Value.noConfusion h)
  | .vInt _, .vBool _ => .isFalse (fun h => Value.noConfusion h)
  | .vInt a, .vInt b =>
    match decEq a b with
    | .isTrue h => .isTrue (congrArg Value.vInt h)
    | .isFalse h => .isFalse (fun hh => h (Value.vInt.inj hh))
  | .vInt _, .vStr _ => .isFalse (fun h => Value.noConfusion h)
  | .vInt _, .vList _ => .isFalse (fun h => Value.noConfusion h)
  | .vInt _, .vDict _ => .isFalse (fun h => Value.noConfusion h)
  | .vStr _, .vNone => .isFalse (fun h => Value.noConfusion h)
  | .vStr _, .vBool _ => .isFalse (fun h => Value.noConfusion h)
  | .vStr _, .vInt _ => .isFalse (fun h => Value.noConfusion h)
  | .vStr a, .vStr b =>
    match decEq a b with
    | .isTrue h => .isTrue (congrArg Value.vStr h)
    | .isFalse h => .isFalse (fun hh => h (Value.vStr.inj hh))
  | .vStr _, .vList _ => .isFalse (fun h => Value.noConfusion h)
  | .vStr _, .vDict _ => .isFalse (fun h => Value.noConfusion h)
  | .vList _, .vNone => .isFalse (fun h => Value.noConfusion h)
  | .vList _, .vBool _ => .isFalse (fun h => Value.noConfusion h)
  | .vList _, .vInt _ => .isFalse (fun h => Value.noConfusion h)
  | .vList _, .vStr _ => .isFalse (fun h => Value.noConfusion h)
  | .vList a, .vList b =>
    match decEqLV a b with
    | .isTrue h => .isTrue (congrArg Value.vList h)
    | .isFalse h => .isFalse (fun hh => h (Value.vList.inj hh))
  | .vList _, .vDict _ => .isFalse (fun h => Value.noConfusion h)
  | .vDict _, .vNone => .isFalse (fun h => Value.noConfusion h)
  | .vDict _, .vBool _ => .isFalse (fun h => Value.noConfusion h)
  | .vDict _, .vInt _ => .isFalse (fun h => Value.noConfusion h)
  | .vDict _, .vStr _ => .isFalse (fun h => Value.noConfusion h)
  | .vDict _, .vList _ => .isFalse (fun h => Value.noConfusion h)
  | .vDict a, .vDict b =>
    match decEqFV a b with
    | .isTrue h => .isTrue (congrArg Value.vDict h)
    | .isFalse h => .isFalse (fun hh => h (Value.vDict.inj hh))

/-- Decidable equality for lists of `Value`. -/
def decEqLV : (a b : List Value) → Decidable (a = b)
  | [], [] => .isTrue rfl
  | [], _ :: _ => .isFalse (fun h => List.noConfusion h)
  | _ :: _, [] => .isFalse (fun h => List.noConfusion h)
  | x :: xs, y :: ys =>
    match decEqV x y with
    | .isFalse h => .isFalse (fun hh => h (List.cons.inj hh).1)
    | .isTrue h1 =>
      match decEqLV xs ys with
      | .isTrue h2 => .isTrue (by rw [h1, h2])
      | .isFalse h2 => .isFalse (fun hh => h2 (List.cons.inj hh).2)

/-- Decidable equality for dictionary entry lists. -/
def decEqFV : (a b : List (String × Value)) → Decidable (a = b)
  | [], [] => .isTrue rfl
  | [], _ :: _ => .isFalse (fun h => List.noConfusion h)
  | _ :: _, [] => .isFalse (fun h => List.noConfusion h)
  | (k1, v1) :: xs, (k2, v2) :: ys =>
    match decEq k1 k2 with
    | .isFalse h =>
      .isFalse (fun hh => h (congrArg Prod.fst (List.cons.inj hh).1))
    | .isTrue hk =>
      match decEqV v1 v2 with
      | .isFalse h =>
        .isFalse (fun hh => h (congrArg Prod.snd (List.cons.inj hh).1))
      | .isTrue hv =>
        match decEqFV xs ys with
        | .isTrue ht => .isTrue (by rw [hk, hv, ht])
        | .isFalse h => .isFalse (fun hh => h (List.cons.inj hh).2)

end

instance : DecidableEq Value := decEqV

/-- A raised Python exception: its `str()` message and the text that
`traceback.format_exc()` would produce. -/
structure PyErr where
  msg : String
  trace : String
deriving DecidableEq

/-- Lookup in a Python dictionary modelled as an association list
(insertion order, unique keys maintained by `dictInsert`). -/
def dictGet (d : List (String × Value)) (k : String) : Option Value :=
  match d.find? (fun p => p.1 == k) with
  | some p => some p.2
  | none => none

/-- Insert into a Python dictionary: overwriting an existing key keeps its
original position, as CPython dictionaries do. -/
def dictInsert (d : List (String × Value)) (k : String) (v : Value) :
    List (String × Value) :=
  match d with
  | [] => [(k, v)]
  | (k0, v0) :: rest =>
    if k0 == k then (k0, v) :: rest else (k0, v0) :: dictInsert rest k v

/-- `str()` of the exception raised by `d[k]` when `k` is missing.  CPython
renders `KeyError` with the quoted key; quotes are elided here. -/
def keyError (k : String) : PyErr :=
  ⟨"KeyError: " ++ k, "Traceback (most recent call last): KeyError"⟩

def typeErrorStrIndex : PyErr :=
  ⟨"string indices must be integers", "Traceback (most recent call last): TypeError"⟩

def typeErrorListIndex : PyErr :=
  ⟨"list indices must be integers or slices, not str", "Traceback (most recent call last): TypeError"⟩

def typeErrorNotSub : PyErr :=
  ⟨"object is not subscriptable", "Traceback (most recent call last): TypeError"⟩

def indexError : PyErr :=
  ⟨"list index out of range", "Traceback (most recent call last): IndexError"⟩

def attrErrorGet : PyErr :=
  ⟨"object has no attribute get", "Traceback (most recent call last): AttributeError"⟩

def attrErrorLower : PyErr :=
  ⟨"object has no attribute lower", "Traceback (most recent call last): AttributeError"⟩

def typeErrorUnhashable : PyErr :=
  ⟨"unhashable type", "Traceback (most recent call last): TypeError"⟩

def typeErrorJoin : PyErr :=
  ⟨"sequence item: expected str instance", "Traceback (most recent call last): TypeError"⟩

/-- Python subscripting `v[k]` with a string key. -/
def getItem (v : Value) (k : String) : Except PyErr Value :=
  match v with
  | .vDict d =>
    match dictGet d k with
    | some w => .ok w
    | none => .error (keyError k)
  | .vStr _ => .error typeErrorStrIndex
  | .vList _ => .error typeErrorListIndex
  | _ => .error typeErrorNotSub

/-- Python subscripting `v[i]` with a non-negative integer index. -/
def getIndex (v : Value) (i : Nat) : Except PyErr Value :=
  match v with
  | .vList xs =>
    match xs.get? i with
    | some w => .ok w
    | none => .error indexError
  | .vStr s =>
    match s.data.get? i with
    | some c => .ok (.vStr (String.mk [c]))
    | none => .error indexError
  | _ => .error typeErrorNotSub

/-- Python `v.get(k, default)`: defined on dictionaries only; on any other
value `.get` raises `AttributeError`. -/
def pyGet (v : Value) (k : String) (default : Value) : Except PyErr Value :=
  match v with
  | .vDict d => .ok ((dictGet d k).getD default)
  | _ => .error attrErrorGet

mutual

/-- Python `repr`, restricted to what this program can print. -/
def pyRepr : Value → String
  | .vNone => "None"
  | .vBool true => "True"
  | .vBool false => "False"
  | .vInt n => toString n
  | .vStr s => "\x27" ++ s ++ "\x27"
  | .vList xs => "[" ++ String.intercalate ", " (pyReprList xs) ++ "]"
  | .vDict d => "\x7b" ++ String.intercalate ", " (pyReprFields d) ++ "\x7d"

/-- `repr` of each element of a Python list. -/
def pyReprList : List Value → List String
  | [] => []
  | x :: xs => pyRepr x :: pyReprList xs

/-- `repr` of each binding of a Python dictionary. -/
def pyReprFields : List (String × Value) → List String
  | [] => []
  | (k, v) :: xs => ("\x27" ++ k ++ "\x27: " ++ pyRepr v) :: pyReprFields xs

end

/-- Python `str()`: identity on strings, `repr`-like otherwise. -/
def pyStr (v : Value) : String :=
  match v with
  | .vStr s => s
  | _ => pyRepr v

/-- Python `v.lower()`: defined on strings, raises `AttributeError`
otherwise. -/
def strLower (v : Value) : Except PyErr Value :=
  match v with
  | .vStr s => .ok (.vStr s.toLower)
  | _ => .error attrErrorLower

/-- The error object built by `safe_run` in `handler.py` when the wrapped
function raises: keys `success`, `error`, `function`, `trace`. -/
def errEnvelope (funcName : String) (e : PyErr) : Value :=
  .vDict [("success", .vBool false), ("error", .vStr e.msg),
          ("function", .vStr funcName), ("trace", .vStr e.trace)]

/-- `safe_run` of `handler.py`: run the wrapped function; on a raised
exception return the structured error object instead of propagating.  The
argument type is abstract, modelling the `*args, **kwargs` signature. -/
def safe_run {α : Type} (funcName : String) (func : α → Except PyErr Value)
    (arg : α) : Value :=
  match func arg with
  | .ok v => v
  | .error e => errEnvelope funcName e

/-- `output_json` of `handler.py`. -/
def outputJson (success : Bool) (result : Value) : Value :=
  .vDict [("success", .vBool success), ("data", result)]

/-- An HTTP response as seen through the `requests` library: its status
code, the outcome of calling `.json()` on it (which may itself raise), and
its decoded body text. -/
structure HttpResponse where
  status : Nat
  jsonResult : Except PyErr Value
  content : String

/-- The external collaborators and configuration of the program: the HTTP
layer (`requests.get`, which may raise, e.g. on a connection error), the
BeautifulSoup step of `GoogleSearch._scrape_webpage` (the texts of the
paragraph tags of the `mw-content-text` div, when that div exists), the
`ollama.chat` call collapsed to its concatenated streamed text, the API
keys read from the environment, and the date string used by `News`. -/
structure Env where
  http : Value → Except PyErr HttpResponse
  parseDiv : String → Option (List String)
  chat : String → Except PyErr String
  weatherKey : String
  newsKey : String
  searchKey : String
  cx : String
  yesterday : String

/-- `Weather._fetch_weather` (raw body, before `safe_run` wrapping):
format the url, GET it, return the decoded JSON on status 200, otherwise
raise a `RuntimeError` mentioning the status and the JSON `error` field
(the lookups in the message may themselves raise first). -/
def Weather.fetch_weather (env : Env) (location : Value) : Except PyErr Value := do
  let url := Value.vStr ("http://api.weatherapi.com/v1/forecast.json?key="
    ++ env.weatherKey ++ "&q=" ++ pyStr location ++ "&aqi=no")
  let data ← env.http url
  if data.status == 200 then
    data.jsonResult
  else do
    let j ← data.jsonResult
    let e ← getItem j "error"
    .error ⟨"Weather Module does not work with status code "
      ++ toString data.status ++ " and content " ++ pyStr e,
      "Traceback (most recent call last): RuntimeError"⟩

/-- The text computed by `Weather._format_data`: pick the fields out of
the JSON payload and build the human-readable summary string; any missing
key or ill-typed field raises. -/
def Weather.format_core (data : Value) : Except PyErr String := do
  let locationO ← getItem data "location"
  let location ← getItem locationO "name"
  let current ← getItem data "current"
  let conditionO ← getItem current "condition"
  let condition ← getItem conditionO "text"
  let temp ← getItem current "temp_c"
  let feelsLike ← getItem current "feelslike_c"
  let humidity ← getItem current "humidity"
  let forecast ← getItem data "forecast"
  let forecastdays ← getItem forecast "forecastday"
  let day0 ← getIndex forecastdays 0
  let forecastToday ← getItem day0 "day"
  let maxTemp ← getItem forecastToday "maxtemp_c"
  let minTemp ← getItem forecastToday "mintemp_c"
  let chanceOfRain ← pyGet forecastToday "daily_chance_of_rain" (.vInt 0)
  let fcondO ← getItem forecastToday "condition"
  let fcond ← getItem fcondO "text"
  let condLower ← strLower condition
  let fcondLower ← strLower fcond
  pure ("Currently, it" ++ "\x27" ++ "s " ++ pyStr condLower ++ " in "
    ++ pyStr location ++ " with " ++ pyStr temp ++ "°C (feels like "
    ++ pyStr feelsLike ++ "°C) and humidity at " ++ pyStr humidity ++ "%. "
    ++ "Today" ++ "\x27" ++ "s forecast: " ++ pyStr fcondLower ++ ", highs of "
    ++ pyStr maxTemp ++ "°C and lows of " ++ pyStr minTemp
    ++ "°C. Chance of rain is " ++ pyStr chanceOfRain ++ "%.")

/-- `Weather._format_data` (raw body): the summary text as a Python
string value. -/
def Weather.format_data (data : Value) : Except PyErr Value :=
  (Weather.format_core data).map .vStr

/-- The shared tail of the three `main` methods:
`if isinstance(data, dict) and data.get(success) is False:
return output_json(False, data.get(error)); return output_json(True, data)`. -/
def mainTail (data : Value) : Value :=
  match data with
  | .vDict d =>
    match dictGet d "success" with
    | some (.vBool false) => outputJson false ((dictGet d "error").getD .vNone)
    | _ => outputJson true data
  | _ => outputJson true data

/-- `Weather.main`: the fetch and format helpers are invoked through their
`safe_run`-wrapped instance attributes (installed by
`ErrorHandler._wrap_modules` at construction), so the body is total. -/
def Weather.main (env : Env) (location : Value) : Value :=
  let fetched := safe_run "_fetch_weather" (Weather.fetch_weather env) location
  let data := safe_run "_format_data" Weather.format_data fetched
  mainTail data

/-- `News._news_format` (raw body). -/
def News.news_format (news : Value) : Except PyErr Value := do
  let src ← getItem news "source"
  let name ← getItem src "name"
  let desc ← getItem news "description"
  let url ← getItem news "url"
  pure (.vStr ("*" ++ pyStr name ++ "*\n " ++ pyStr desc ++ "\nLink:- "
    ++ pyStr url ++ "\n"))

/-- Python `"sep".join(xs)`: succeeds only when every element is a
string, raising `TypeError` at the first element that is not. -/
def joinStrs (sep : String) : List Value → Except PyErr String
  | [] => .ok ""
  | [.vStr s] => .ok s
  | .vStr s :: x :: rest => do
    let t ← joinStrs sep (x :: rest)
    .ok (s ++ sep ++ t)
  | _ => .error typeErrorJoin

/-- `News._filter_data` (raw body): take `data[articles]`, format the
first ten entries through the wrapped `_news_format`, join with newlines.
A non-list `articles` value makes the slicing/joining raise. -/
def News.filter_data (data : Value) : Except PyErr Value := do
  let arts ← getItem data "articles"
  match arts with
  | .vList xs =>
    (joinStrs "\n"
      ((xs.take 10).map (safe_run "_news_format" News.news_format))).map .vStr
  | _ => .error typeErrorNotSub

/-- `News._fetch_news` (raw body): GET the query url; on status 200 return
the result of the wrapped `_filter_data` on the decoded JSON (`.json()`
itself may raise); otherwise raise a `RuntimeError` whose message embeds
the response message or raw content. -/
def News.fetch_news (env : Env) (topic : Value) : Except PyErr Value := do
  let url := Value.vStr ("https://newsapi.org/v2/everything?q=" ++ pyStr topic
    ++ "&from=" ++ env.yesterday ++ "&sortBy=publishedAt&apiKey=" ++ env.newsKey)
  let response ← env.http url
  if response.status == 200 then
    match response.jsonResult with
    | .ok j => pure (safe_run "_filter_data" News.filter_data j)
    | .error e => .error e
  else
    let errorMessage : Value :=
      match response.jsonResult with
      | .ok (.vDict d) => (dictGet d "message").getD (.vStr "No message provided")
      | _ => .vStr response.content
    .error ⟨"News API Error:\nTopic: " ++ pyStr topic ++ "\nStatus Code: "
      ++ toString response.status ++ "\nMessage: " ++ pyStr errorMessage,
      "Traceback (most recent call last): RuntimeError"⟩

/-- `News.main`. -/
def News.main (env : Env) (topic : Value) : Value :=
  let data := safe_run "_fetch_news" (News.fetch_news env) topic
  mainTail data

/-- `GoogleSearch._scrape_webpage` (raw body): parse the HTML, find the
`mw-content-text` div (raising `AttributeError` on `None.find_all` when it
is absent), and join the paragraph texts longer than 50 characters. -/
def GoogleSearch.scrape_webpage (env : Env) (data : Value) : Except PyErr Value :=
  match data with
  | .vStr s =>
    match env.parseDiv s with
    | none => .error ⟨"NoneType object has no attribute find_all",
        "Traceback (most recent call last): AttributeError"⟩
    | some ps =>
      .ok (.vStr (String.intercalate "\n" (ps.filter (fun p => p.length > 50))))
  | _ => .error typeErrorNotSub

/-- `GoogleSearch._get_webpage` (raw body): GET the link (no status
check), then run the wrapped `_scrape_webpage` on the decoded content. -/
def GoogleSearch.get_webpage (env : Env) (link : Value) : Except PyErr Value := do
  let response ← env.http link
  pure (safe_run "_scrape_webpage" (GoogleSearch.scrape_webpage env)
    (.vStr response.content))

/-- `GoogleSearch._do_google_search` (raw body). -/
def GoogleSearch.do_google_search (env : Env) (topic : Value) : Except PyErr Value := do
  let url := Value.vStr ("https://www.googleapis.com/customsearch/v1?key="
    ++ env.searchKey ++ "&cx=" ++ env.cx ++ "&q=" ++ pyStr topic ++ " wikipedia")
  let response ← env.http url
  if response.status == 200 then do
    let j ← response.jsonResult
    let items ← getItem j "items"
    let first ← getIndex items 0
    let link ← getItem first "formattedUrl"
    pure (safe_run "_get_webpage" (GoogleSearch.get_webpage env) link)
  else
    .error ⟨"Error in Google search with status code : "
      ++ toString response.status ++ " Message : " ++ response.content,
      "Traceback (most recent call last): RuntimeError"⟩

/-- `GoogleSearch.main`. -/
def GoogleSearch.main (env : Env) (topic : Value) : Value :=
  let data := safe_run "_do_google_search" (GoogleSearch.do_google_search env) topic
  mainTail data

/-- The Tool Registry `Eve.TOOLS` built in `Eve.__init__`: tool name to
the (wrapped, hence total) `main` bound method of each module instance. -/
def TOOLS (env : Env) : List (String × (Value → Value)) :=
  [("get_weather", Weather.main env),
   ("get_news", News.main env),
   ("get_search", GoogleSearch.main env)]

/-- Registry lookup, `name in self.TOOLS` / `self.TOOLS[name]`. -/
def lookupTool (tools : List (String × (Value → Value))) (name : String) :
    Option (Value → Value) :=
  match tools.find? (fun p => p.1 == name) with
  | some p => some p.2
  | none => none

/-- The known-error envelope dispatch returns for an unregistered tool
name. -/
def unknownEnv : Value :=
  .vDict [("success", .vBool false), ("data", .vStr "unknown function called")]

/-- Python hashability of a value: only lists and dictionaries are
unhashable, so only they make `name in self.TOOLS` raise. -/
def hashable : Value → Bool
  | .vList _ => false
  | .vDict _ => false
  | _ => true

/-- Result of one dispatch, instrumented with which tool (if any) was
invoked and with which input value. -/
structure CallResult where
  invoked : Option (String × Value)
  result : Value
deriving DecidableEq

/-- `Eve._call_module` (raw body): read `tool` (default `None`) and
`input` (default the fallback `user_input`) from the request dictionary,
then look the name up in the registry; an unhashable name makes the
membership test raise `TypeError`. -/
def call_module (tools : List (String × (Value → Value)))
    (tool_dict user_input : Value) : Except PyErr CallResult := do
  let toolName ← pyGet tool_dict "tool" .vNone
  let inputValue ← pyGet tool_dict "input" user_input
  match toolName with
  | .vStr name =>
    match lookupTool tools name with
    | some f => pure ⟨some (name, inputValue), f inputValue⟩
    | none => pure ⟨none, unknownEnv⟩
  | v =>
    if hashable v then pure ⟨none, unknownEnv⟩
    else .error typeErrorUnhashable

/-- The dispatch entry point as callers see it: `_call_module` is invoked
through its `safe_run`-wrapped instance attribute, so a raised membership
error is converted to the wrapper error object. -/
def dispatch (tools : List (String × (Value → Value)))
    (tool_dict user_input : Value) : CallResult :=
  match call_module tools tool_dict user_input with
  | .ok r => r
  | .error e => ⟨none, errEnvelope "_call_module" e⟩

/-! ### The extraction pattern of `Eve._extract_json`

The regular expression used in the source is (braces written out)
`\x7b.*?"tool"\s*:\s*".*?".*?\x7d`.  It contains only literal characters,
the lazy any-character quantifier `.*?` (where `.` does not match a
newline) and the greedy whitespace quantifier `\s*`, so it is embedded as
a small pattern language with exactly those three constructs, matched with
Python backtracking semantics: lazy quantifiers try the empty expansion
first, greedy ones the longest, and `re.search` tries start positions
left to right. -/

/-- The pattern fragment language needed by the source regex. -/
inductive Pat where
  | eps : Pat
  | lit : Char → Pat → Pat
  | anyLazy : Pat → Pat
  | wsGreedy : Pat → Pat

/-- Size measure used for termination of the matcher. -/
@[simp] def Pat.size : Pat → Nat
  | .eps => 1
  | .lit _ r => r.size + 1
  | .anyLazy r => r.size + 1
  | .wsGreedy r => r.size + 1

/-- The characters matched by Python `\s` (ASCII range). -/
def isWs (c : Char) : Bool :=
  c == ' ' || c == '\t' || c == '\n' || c == '\r' || c == '\x0b' || c == '\x0c'

/-- The expansion loop of a lazy `.*?` followed by the continuation
matcher `mr`: try the continuation first (empty expansion), then consume
one non-newline character and retry. -/
def anyLoop (mr : List Char → Option (List Char)) : List Char → Option (List Char)
  | [] => mr []
  | x :: xs =>
    match mr (x :: xs) with
    | some rest => some rest
    | none => if x = '\n' then none else anyLoop mr xs

/-- The expansion loop of a greedy `\s*` followed by the continuation
matcher `mr`: consume as much whitespace as possible first, backtracking
to shorter expansions. -/
def wsLoop (mr : List Char → Option (List Char)) : List Char → Option (List Char)
  | [] => mr []
  | x :: xs =>
    if isWs x then
      match wsLoop mr xs with
      | some rest => some rest
      | none => mr (x :: xs)
    else mr (x :: xs)

/-- Match a pattern against a prefix of `s` with Python backtracking
order; return the unconsumed suffix of the first successful expansion. -/
def matchPat : Pat → List Char → Option (List Char)
  | .eps, s => some s
  | .lit c r, s =>
    match s with
    | [] => none
    | x :: xs => if x = c then matchPat r xs else none
  | .anyLazy r, s => anyLoop (matchPat r) s
  | .wsGreedy r, s => wsLoop (matchPat r) s

/-- `re.search`: try each start position left to right; on success return
the matched region (the consumed prefix at that position). -/
def reSearch (p : Pat) : List Char → Option (List Char)
  | [] =>
    match matchPat p [] with
    | some rest => some (List.take (0 - rest.length) [])
    | none => none
  | s@(_ :: xs) =>
    match matchPat p s with
    | some rest => some (s.take (s.length - rest.length))
    | none => reSearch p xs

/-- String literals as chains of `Pat.lit`. -/
def litStr (s : String) (rest : Pat) : Pat :=
  s.data.foldr Pat.lit rest

/-- The source pattern `\x7b.*?"tool"\s*:\s*".*?".*?\x7d` of
`Eve._extract_json`. -/
def toolPattern : Pat :=
  .lit '\x7b' (.anyLazy (litStr "\"tool\"" (.wsGreedy (.lit ':'
    (.wsGreedy (.lit '"' (.anyLazy (.lit '"' (.anyLazy
    (.lit '\x7d' Pat.eps))))))))))

/-! ### `json.loads`

A recursive-descent JSON parser standing for `json.loads`.  JSON numbers
are restricted to integers (no claim involves numeric payloads) and
`\uXXXX` escapes are rejected; on any invalid document it raises, as
`json.loads` raises `json.JSONDecodeError`. -/

/-- A `json.JSONDecodeError` with the given description. -/
def jsonError (m : String) : PyErr :=
  ⟨"JSONDecodeError: " ++ m, "Traceback (most recent call last): JSONDecodeError"⟩

/-- JSON insignificant whitespace. -/
def jsonWs (c : Char) : Bool :=
  c == ' ' || c == '\t' || c == '\n' || c == '\r'

/-- Parse the body of a JSON string literal (after the opening quote). -/
def parseStringBody (s : List Char) : Except PyErr (List Char × List Char) :=
  match s with
  | [] => .error (jsonError "Unterminated string")
  | c :: rest =>
    if c = '"' then .ok ([], rest)
    else if c = '\\' then
      match rest with
      | [] => .error (jsonError "Unterminated string")
      | e :: rest2 =>
        let decoded : Option Char :=
          if e = '"' then some '"'
          else if e = '\\' then some '\\'
          else if e = '/' then some '/'
          else if e = 'n' then some '\n'
          else if e = 't' then some '\t'
          else if e = 'r' then some '\r'
          else none
        match decoded with
        | some d =>
          match parseStringBody rest2 with
          | .ok (cs, r) => .ok (d :: cs, r)
          | .error err => .error err
        | none => .error (jsonError "Invalid escape")
    else
      match parseStringBody rest with
      | .ok (cs, r) => .ok (c :: cs, r)
      | .error err => .error err

/-- Longest digit run at the front. -/
def spanDigits (s : List Char) : List Char × List Char :=
  match s with
  | [] => ([], [])
  | c :: rest =>
    if c.isDigit then
      let (d, r) := spanDigits rest
      (c :: d, r)
    else ([], s)

/-- Digits to a natural number. -/
def digitsToNat (ds : List Char) : Nat :=
  ds.foldl (fun acc c => acc * 10 + (c.toNat - 48)) 0

/-- Merge a parsed leading object member with the dictionary of the
remaining members, preserving CPython insertion-order/overwrite
semantics. -/
def dictPrepend (k : String) (v : Value) (d : List (String × Value)) :
    List (String × Value) :=
  d.foldl (fun acc kv => dictInsert acc kv.1 kv.2) [(k, v)]

/-- Parse one JSON value at the current position (no leading whitespace).
Structural recursion on the fuel only, so the definition reduces on
concrete input; `jsonLoads` supplies enough fuel for any document.  An
object or array with more than one member is parsed by handling its first
member and re-entering the parser on the remaining members prefixed with
the opening token again (with a guard so that trailing commas are still
rejected); this is observably the same recursive-descent grammar. -/
def parseValueF : Nat → List Char → Except PyErr (Value × List Char)
  | 0, _ => .error (jsonError "Depth exhausted")
  | _ + 1, [] => .error (jsonError "Expecting value")
  | fuel + 1, c :: rest =>
    if c = '"' then
      match parseStringBody rest with
      | .ok (cs, r) => .ok (.vStr (String.mk cs), r)
      | .error err => .error err
    else if c = '\x7b' then
      match List.dropWhile jsonWs rest with
      | '\x7d' :: r1 => .ok (.vDict [], r1)
      | '"' :: r1 =>
        match parseStringBody r1 with
        | .error err => .error err
        | .ok (cs, r2) =>
          match List.dropWhile jsonWs r2 with
          | ':' :: r3 =>
            match parseValueF fuel (List.dropWhile jsonWs r3) with
            | .error err => .error err
            | .ok (v, r4) =>
              match List.dropWhile jsonWs r4 with
              | '\x7d' :: r5 => .ok (.vDict [(String.mk cs, v)], r5)
              | ',' :: r5 =>
                match List.dropWhile jsonWs r5 with
                | '"' :: r6 =>
                  match parseValueF fuel ('\x7b' :: '"' :: r6) with
                  | .ok (.vDict d, r7) =>
                    .ok (.vDict (dictPrepend (String.mk cs) v d), r7)
                  | .ok _ => .error (jsonError "Expecting property name")
                  | .error err => .error err
                | _ => .error (jsonError "Expecting property name")
              | _ => .error (jsonError "Expecting comma delimiter")
          | _ => .error (jsonError "Expecting colon delimiter")
      | _ => .error (jsonError "Expecting property name")
    else if c = '[' then
      match List.dropWhile jsonWs rest with
      | ']' :: r1 => .ok (.vList [], r1)
      | r0 =>
        match parseValueF fuel r0 with
        | .error err => .error err
        | .ok (v, r1) =>
          match List.dropWhile jsonWs r1 with
          | ']' :: r2 => .ok (.vList [v], r2)
          | ',' :: r2 =>
            match List.dropWhile jsonWs r2 with
            | ']' :: _ => .error (jsonError "Expecting value")
            | r3 =>
              match parseValueF fuel ('[' :: r3) with
              | .ok (.vList vs, r4) => .ok (.vList (v :: vs), r4)
              | .ok _ => .error (jsonError "Expecting value")
              | .error err => .error err
          | _ => .error (jsonError "Expecting comma delimiter")
    else if c = 't' then
      match rest with
      | 'r' :: 'u' :: 'e' :: r => .ok (.vBool true, r)
      | _ => .error (jsonError "Expecting value")
    else if c = 'f' then
      match rest with
      | 'a' :: 'l' :: 's' :: 'e' :: r => .ok (.vBool false, r)
      | _ => .error (jsonError "Expecting value")
    else if c = 'n' then
      match rest with
      | 'u' :: 'l' :: 'l' :: r => .ok (.vNone, r)
      | _ => .error (jsonError "Expecting value")
    else if c = '-' then
      match spanDigits rest with
      | ([], _) => .error (jsonError "Expecting value")
      | (ds, r) => .ok (.vInt (-(digitsToNat ds : Int)), r)
    else if c.isDigit then
      match spanDigits (c :: rest) with
      | (ds, r) => .ok (.vInt (digitsToNat ds : Int), r)
    else .error (jsonError "Expecting value")

/-- `json.loads`. -/
def jsonLoads (s : String) : Except PyErr Value :=
  match parseValueF (s.length + 2) (List.dropWhile jsonWs s.data) with
  | .error err => .error err
  | .ok (v, r) =>
    match List.dropWhile jsonWs r with
    | [] => .ok v
    | _ => .error (jsonError "Extra data")

/-! ### `Eve._extract_json` and `Eve.run` -/

/-- What `_extract_json` did, stripped of printing: either it found and
parsed a tool call and dispatched it, or no pattern match was found and
the whole generated text is the conversational reply (the source prints
it as `Medusa :- <text>`). -/
inductive ExtractResult where
  | dispatched : Value → CallResult → ExtractResult
  | reply : String → ExtractResult
deriving DecidableEq

/-- `Eve._extract_json` (raw body): search the generated text for the
tool pattern; on a match, `json.loads` the matched region (which may
raise), dispatch through the wrapped `_call_module`, and read
`response[success]` and `response[data]` (which may raise).  The final
`_generate_response` call is itself `safe_run`-wrapped and its value is
discarded, so it cannot raise here and is not modelled. -/
def extract_json (tools : List (String × (Value → Value)))
    (generated user : String) : Except PyErr ExtractResult := do
  match reSearch toolPattern generated.data with
  | some matched => do
    let tool ← jsonLoads (String.mk matched)
    let response := dispatch tools tool (.vStr user)
    let _ ← getItem response.result "success"
    let _ ← getItem response.result "data"
    pure (.dispatched tool response)
  | none => pure (.reply generated)

/-- What a call to the `safe_run`-wrapped `_extract_json` attribute
observably did: completed normally, or raised and was converted to the
wrapper error object. -/
inductive ExtractOutcome where
  | normal : ExtractResult → ExtractOutcome
  | caught : Value → ExtractOutcome
deriving DecidableEq

/-- The wrapped `_extract_json` as `Eve.run` calls it. -/
def extractRun (tools : List (String × (Value → Value)))
    (generated user : String) : ExtractOutcome :=
  match extract_json tools generated user with
  | .ok r => .normal r
  | .error e => .caught (errEnvelope "_extract_json" e)

/-- How the interactive loop of `Eve.run` ended: by the literal input
`break`, or because an exception escaped the loop body (a failed
`ollama.chat` call, or `input()` raising `EOFError` when the input stream
is exhausted).  A raised exception is then caught by the `safe_run`
wrapper on `run` itself, so the process falls off the end of the script
rather than crashing. -/
inductive LoopExit where
  | brk : LoopExit
  | raised : PyErr → LoopExit
deriving DecidableEq

/-- The `EOFError` that `input()` raises at end of input. -/
def eofError : PyErr :=
  ⟨"EOF when reading a line", "Traceback (most recent call last): EOFError"⟩

/-- `Eve.run` (raw body) driven by a finite stream of user input lines:
read a line (`EOFError` when exhausted), stop on `break`, otherwise ask
the routing model (which may raise) and run the wrapped `_extract_json`
(total) on its output, then loop. -/
def runRaw (env : Env) (tools : List (String × (Value → Value)))
    (inputs : List String) : LoopExit :=
  match inputs with
  | [] => .raised eofError
  | userInput :: rest =>
    if userInput = "break" then .brk
    else
      match env.chat userInput with
      | .error e => .raised e
      | .ok text =>
        let _ := extractRun tools text userInput
        runRaw env tools rest

/-! ### `ErrorHandler._wrap_modules`

An object instance is modelled as its attribute table: name to attribute,
where an attribute is either callable (a possibly raising function, the
`*args` collapsed to one abstract `Value`) or a plain value.  At
construction `_wrap_modules` walks `dir(self)`, skips names starting with
a double underscore, and replaces every callable attribute with its
`safe_run`-wrapped form. -/

/-- A Python attribute: callable or not. -/
inductive Attr where
  | callable : (Value → Except PyErr Value) → Attr
  | plain : Value → Attr

/-- One step of the loop body of `_wrap_modules`:
`setattr(self, attr_name, safe_run(attr))` when the attribute is
callable. -/
def wrapAttr (name : String) : Attr → Attr
  | .callable f => .callable (fun v => .ok (safe_run name f v))
  | .plain v => .plain v

/-- `attr_name.startswith("__")`: the first two characters are
underscores. -/
def startsWithDunder (name : String) : Bool :=
  match name.data with
  | '_' :: '_' :: _ => true
  | _ => false

/-- `ErrorHandler._wrap_modules`: wrap every callable attribute whose name
does not start with `__`. -/
def wrap_modules (obj : List (String × Attr)) : List (String × Attr) :=
  obj.map (fun p => if startsWithDunder p.1 then p else (p.1, wrapAttr p.1 p.2))

/-- `getattr(obj, name)`. -/
def getAttr (obj : List (String × Attr)) (name : String) : Option Attr :=
  match obj.find? (fun p => p.1 == name) with
  | some p => some p.2
  | none => none

/-! ### Concrete fixtures used by witnesses and counterexamples -/

/-- An environment whose outbound calls all fail: every HTTP request and
chat call raises a connection error. -/
def envFail : Env :=
  ⟨fun _ => .error ⟨"ConnectionError", "Traceback (most recent call last): ConnectionError"⟩,
   fun _ => none,
   fun _ => .error ⟨"ChatConnectionError", "Traceback (most recent call last): ConnectionError"⟩,
   "", "", "", "", ""⟩

/-- An environment whose chat call always succeeds with a fixed plain
reply. -/
def envChatOk : Env :=
  ⟨fun _ => .error ⟨"ConnectionError", "Traceback (most recent call last): ConnectionError"⟩,
   fun _ => none,
   fun _ => .ok "hello there",
   "", "", "", "", ""⟩

/-- A small attribute table in the shape of the `Weather` instance:
a dunder method, a raising single-underscore helper, and a plain data
attribute. -/
def demoObj : List (String × Attr) :=
  [("__init__", .callable (fun _ => .ok .vNone)),
   ("_fetch_weather", .callable (fun _ =>
      .error ⟨"ConnectionError", "Traceback (most recent call last): ConnectionError"⟩)),
   ("_description", .plain (.vStr "Fetches current weather"))]

/-- The raising helper stored in `demoObj`. -/
def demoFetch : Value → Except PyErr Value :=
  fun _ => .error ⟨"ConnectionError", "Traceback (most recent call last): ConnectionError"⟩

/-- The generated text of the extraction example in the specification. -/
def demoGenerated : String :=
  "Sure thing! \x7b\"tool\":\"get_weather\",\"input\":\"delhi\"\x7d — let me check."

/-- The tool-call request embedded in `demoGenerated`. -/
def demoRequest : Value :=
  .vDict [("tool", .vStr "get_weather"), ("input", .vStr "delhi")]

/-- A generated text whose matched region is not valid JSON. -/
def badGenerated : String :=
  "ok \x7b\"tool\": \"a\" oops\x7d done"

/-- The `success` entry of a returned value, when the value is a
dictionary carrying one. -/
def successField (v : Value) : Option Value :=
  match v with
  | .vDict d => dictGet d "success"
  | _ => none

/-- The failure condition of the weather tool: its underlying fetch
raises (network error, non-2xx status, `.json()` failure), or the fetch
succeeds but the malformed payload makes `_format_data` raise. -/
def weatherFails (env : Env) (location : Value) : Prop :=
  (∃ e, Weather.fetch_weather env location = .error e) ∨
  (∃ j, Weather.fetch_weather env location = .ok j ∧
    ∃ e, Weather.format_data j = .error e)

/-- The failure condition of the news tool: `_fetch_news` raises, or it
returns the error object of the wrapped `_filter_data` because the
decoded payload made filtering raise. -/
def newsFails (env : Env) (topic : Value) : Prop :=
  (∃ e, News.fetch_news env topic = .error e) ∨
  (∃ e, News.fetch_news env topic = .ok (errEnvelope "_filter_data" e))

/-- The failure condition of the search tool: `_do_google_search` raises,
or it returns the error object of the wrapped `_get_webpage` (second
fetch raised) or of the wrapped `_scrape_webpage` (scrape raised). -/
def googleFails (env : Env) (topic : Value) : Prop :=
  (∃ e, GoogleSearch.do_google_search env topic = .error e) ∨
  (∃ e, GoogleSearch.do_google_search env topic =
    .ok (errEnvelope "_get_webpage" e)) ∨
  (∃ e, GoogleSearch.do_google_search env topic =
    .ok (errEnvelope "_scrape_webpage" e))

/-- A benign exception: its message is not the sentinel text of the
unknown-tool envelope.  Upstream messages flow into tool envelopes, so
this is what separates a forwarded tool failure from the dispatch
sentinel. -/
def benign (e : PyErr) : Prop := e.msg ≠ "unknown function called"

/-- A well-behaved environment: neither a raised HTTP call nor a raised
`.json()` decode carries the exact sentinel text `unknown function
called` as its message (real `requests`/`json` error messages never do). -/
def EnvOk (env : Env) : Prop :=
  (∀ v e, env.http v = .error e → e.msg ≠ "unknown function called") ∧
  (∀ v r, env.http v = .ok r → ∀ e, r.jsonResult = .error e →
    e.msg ≠ "unknown function called")

/-! ## Theorems -/

/-- Inversion for a failing monadic bind over `Except`. -/
theorem bind_error_inv {α β : Type} (x : Except PyErr α)
    (f : α → Except PyErr β) (e : PyErr) (h : x >>= f = .error e) :
    x = .error e ∨ ∃ a, x = .ok a ∧ f a = .error e := by
  cases x with
  | error e2 =>
    left
    simp only [bind, Except.bind] at h
    injection h with he
    exact he ▸ rfl
  | ok a =>
    right
    exact ⟨a, rfl, by simpa [bind, Except.bind] using h⟩

/-- The first character of a string survives appending on the right. -/
theorem head_append (a b : String) (c : Char) (h : a.data.head? = some c) :
    (a ++ b).data.head? = some c := by
  cases a with | mk l =>
  cases b with | mk m =>
  cases l with
  | nil => simp at h
  | cons x xs => simpa [String.append] using h

/-- A string whose first character is not `u` is not the unknown-tool
sentinel text. -/
theorem ne_unknown_of_head (s : String) (c : Char)
    (hc : s.data.head? = some c) (hne : c ≠ 'u') :
    s ≠ "unknown function called" := by
  intro he
  subst he
  rw [show ("unknown function called").data.head? = some 'u' from rfl] at hc
  exact hne (Option.some.inj hc).symm

/-- `KeyError` messages are benign. -/
theorem keyError_benign (k : String) : benign (keyError k) :=
  ne_unknown_of_head _ 'K' (head_append "KeyError: " k 'K' rfl) (by decide)

/-- Errors raised by string-key subscripting are benign. -/
theorem getItem_benign (v : Value) (k : String) (e : PyErr)
    (h : getItem v k = .error e) : benign e := by
  cases v <;> simp [getItem] at h
  case vDict d =>
    split at h
    · simp at h
    · simp at h
      exact h.symm ▸ keyError_benign k
  all_goals exact h.symm ▸ (by unfold benign; decide)

/-- Errors raised by integer subscripting are benign. -/
theorem getIndex_benign (v : Value) (i : Nat) (e : PyErr)
    (h : getIndex v i = .error e) : benign e := by
  cases v <;> simp [getIndex] at h
  case vStr s =>
    split at h
    · simp at h
    · simp at h
      exact h.symm ▸ (by unfold benign; decide)
  case vList xs =>
    split at h
    · simp at h
    · simp at h
      exact h.symm ▸ (by unfold benign; decide)
  all_goals exact h.symm ▸ (by unfold benign; decide)

/-- Errors raised by `.get` on a non-dictionary are benign. -/
theorem pyGet_benign (v : Value) (k : String) (d : Value) (e : PyErr)
    (h : pyGet v k d = .error e) : benign e := by
  cases v <;> simp [pyGet] at h
  all_goals exact h.symm ▸ (by unfold benign; decide)

/-- Errors raised by `.lower()` are benign. -/
theorem strLower_benign (v : Value) (e : PyErr)
    (h : strLower v = .error e) : benign e := by
  cases v <;> simp [strLower] at h
  all_goals exact h.symm ▸ (by unfold benign; decide)

/-- Errors raised by `str.join` are benign. -/
theorem joinStrs_benign (sep : String) (xs : List Value) (e : PyErr)
    (h : joinStrs sep xs = .error e) : benign e := by
  induction xs with
  | nil => simp [joinStrs] at h
  | cons x rest ih =>
    match x, rest with
    | .vStr s, [] => simp [joinStrs] at h
    | .vStr s, y :: rest2 =>
      rcases bind_error_inv _ _ _ (by simpa [joinStrs] using h) with h1 | ⟨a, ha, h1⟩
      · exact ih h1
      · simp [pure, Except.pure] at h1
    | .vNone, _ => simp [joinStrs] at h; exact h.symm ▸ (by unfold benign; decide)
    | .vBool b, _ => simp [joinStrs] at h; exact h.symm ▸ (by unfold benign; decide)
    | .vInt n, _ => simp [joinStrs] at h; exact h.symm ▸ (by unfold benign; decide)
    | .vList l, _ => simp [joinStrs] at h; exact h.symm ▸ (by unfold benign; decide)
    | .vDict l, _ => simp [joinStrs] at h; exact h.symm ▸ (by unfold benign; decide)


/-- C1: for every operation and argument, the `safe_run`-wrapped call
never raises past the wrapper: if the operation completes normally the
wrapped call returns its result unmodified, and if it raises any
exception the wrapped call returns the error object
`success=false / error=message / function=name / trace=trace`. -/
theorem safe_run_totality (funcName : String)
    (op : Value → Except PyErr Value) (arg : Value) :
    (∀ v, op arg = .ok v → safe_run funcName op arg = v) ∧
    (∀ e, op arg = .error e → safe_run funcName op arg =
      .vDict [("success", .vBool false), ("error", .vStr e.msg),
              ("function", .vStr funcName), ("trace", .vStr e.trace)]) := by
  constructor
  · intro v h
    simp [safe_run, h]
  · intro e h
    simp [safe_run, h, errEnvelope]

/-- Witness for C1 at concrete operations: one returning normally, one
raising. -/
theorem safe_run_totality_witness :
    safe_run "ok_op" (fun _ => .ok (.vInt 7)) Value.vNone = .vInt 7 ∧
    safe_run "bad_op" (fun _ => .error ⟨"boom", "tb"⟩) Value.vNone =
      .vDict [("success", .vBool false), ("error", .vStr "boom"),
              ("function", .vStr "bad_op"), ("trace", .vStr "tb")] :=
  ⟨(safe_run_totality "ok_op" (fun _ => .ok (.vInt 7)) .vNone).1 _ rfl,
   (safe_run_totality "bad_op" (fun _ => .error ⟨"boom", "tb"⟩) .vNone).2 _ rfl⟩

/-- C10: after `_wrap_modules` runs at construction, every callable
attribute whose name does not start with a double underscore (single
underscore helpers included) has been replaced by its `safe_run`-wrapped
form, and invoking it never raises. -/
theorem wrap_modules_wraps (obj : List (String × Attr)) (name : String)
    (f : Value → Except PyErr Value)
    (hname : startsWithDunder name = false)
    (hattr : getAttr obj name = some (.callable f)) :
    getAttr (wrap_modules obj) name =
      some (.callable (fun v => .ok (safe_run name f v))) ∧
    ∀ (g : Value → Except PyErr Value),
      getAttr (wrap_modules obj) name = some (.callable g) →
      ∀ v, ∃ r, g v = .ok r := by
  have key : getAttr (wrap_modules obj) name =
      some (.callable (fun v => .ok (safe_run name f v))) := by
    induction obj with
    | nil => simp [getAttr, List.find?] at hattr
    | cons p rest ih =>
      obtain ⟨k, a⟩ := p
      by_cases hk : k == name
      · have hkeq : k = name := eq_of_beq hk
        subst hkeq
        simp [getAttr, List.find?, hk] at hattr
        simp [wrap_modules, getAttr, List.find?, hname, hk, hattr, wrapAttr]
      · have h1 : getAttr ((k, a) :: rest) name = getAttr rest name := by
          simp [getAttr, List.find?, hk]
        rw [h1] at hattr
        have h2 := ih hattr
        by_cases hs : startsWithDunder k
        · simpa [wrap_modules, getAttr, List.find?, hs, hk] using h2
        · simpa [wrap_modules, getAttr, List.find?, hs, hk] using h2
  refine ⟨key, ?_⟩
  intro g hg v
  rw [key] at hg
  have h1 := Option.some.inj hg
  have h2 := Attr.callable.inj h1
  exact ⟨safe_run name f v, by rw [← h2]⟩

/-- Witness for C10 on a concrete instance shaped like `Weather`: the
single-underscore helper `_fetch_weather`, which always raises, is
wrapped and its wrapped form returns normally. -/
theorem wrap_modules_wraps_witness :
    getAttr (wrap_modules demoObj) "_fetch_weather" =
      some (.callable (fun v => .ok (safe_run "_fetch_weather" demoFetch v))) ∧
    (fun v => Except.ok (ε := PyErr) (safe_run "_fetch_weather" demoFetch v))
      Value.vNone = .ok (errEnvelope "_fetch_weather"
        ⟨"ConnectionError", "Traceback (most recent call last): ConnectionError"⟩) :=
  ⟨(wrap_modules_wraps demoObj "_fetch_weather" demoFetch rfl rfl).1,
   rfl⟩

/-- C3 counterexample: a request whose `input` key is present but empty.
The source reads `tool_dict.get('input', user_input)`, whose fallback
fires only when the key is absent, so the tool is invoked with the empty
string and not with the fallback `paris` — the claim says the fallback
should have been used. -/
theorem dispatch_empty_input_counterexample :
    (dispatch (TOOLS envFail)
      (.vDict [("tool", .vStr "get_weather"), ("input", .vStr "")])
      (.vStr "paris")).invoked = some ("get_weather", .vStr "") ∧
    (dispatch (TOOLS envFail)
      (.vDict [("tool", .vStr "get_weather"), ("input", .vStr "")])
      (.vStr "paris")).invoked ≠ some ("get_weather", .vStr "paris") := by
  constructor
  · rfl
  · decide

/-- C3 as amended: for a registered tool name, dispatch invokes the tool
with the request `input` value whenever the `input` key is present (even
when it is the empty string), and with the fallback input only when the
`input` key is absent. -/
theorem dispatch_input_key (env : Env) (l : List (String × Value))
    (u : Value) (name : String) (f : Value → Value)
    (htool : dictGet l "tool" = some (.vStr name))
    (hf : lookupTool (TOOLS env) name = some f) :
    (∀ inp, dictGet l "input" = some inp →
      dispatch (TOOLS env) (.vDict l) u = ⟨some (name, inp), f inp⟩) ∧
    (dictGet l "input" = none →
      dispatch (TOOLS env) (.vDict l) u = ⟨some (name, u), f u⟩) := by
  constructor
  · intro inp hinp
    simp [dispatch, call_module, pyGet, htool, hinp, hf, bind, Except.bind,
      pure, Except.pure]
  · intro hinp
    simp [dispatch, call_module, pyGet, htool, hinp, hf, bind, Except.bind,
      pure, Except.pure]

/-- Witness for the amended C3: the empty-string input is forwarded as
given, and an absent key falls back to the user input. -/
theorem dispatch_input_key_witness :
    dispatch (TOOLS envFail)
      (.vDict [("tool", .vStr "get_weather"), ("input", .vStr "")])
      (.vStr "paris") =
      ⟨some ("get_weather", .vStr ""), Weather.main envFail (.vStr "")⟩ ∧
    dispatch (TOOLS envFail) (.vDict [("tool", .vStr "get_weather")])
      (.vStr "paris") =
      ⟨some ("get_weather", .vStr "paris"), Weather.main envFail (.vStr "paris")⟩ :=
  ⟨(dispatch_input_key envFail
      [("tool", .vStr "get_weather"), ("input", .vStr "")] (.vStr "paris")
      "get_weather" (Weather.main envFail) rfl rfl).1 (.vStr "") rfl,
   (dispatch_input_key envFail [("tool", .vStr "get_weather")] (.vStr "paris")
      "get_weather" (Weather.main envFail) rfl rfl).2 rfl⟩

/-- Every branch of `mainTail` builds `output_json`, so every tool entry
point returns a two-key envelope. -/
theorem mainTail_shape (data : Value) : ∃ b w, mainTail data = outputJson b w := by
  unfold mainTail
  split
  · split
    · exact ⟨false, _, rfl⟩
    · exact ⟨true, _, rfl⟩
  · exact ⟨true, _, rfl⟩

/-- `Weather.main` always returns an `output_json` envelope. -/
theorem weatherMain_shape (env : Env) (v : Value) :
    ∃ b w, Weather.main env v = outputJson b w :=
  mainTail_shape _

/-- `News.main` always returns an `output_json` envelope. -/
theorem newsMain_shape (env : Env) (v : Value) :
    ∃ b w, News.main env v = outputJson b w :=
  mainTail_shape _

/-- `GoogleSearch.main` always returns an `output_json` envelope. -/
theorem googleMain_shape (env : Env) (v : Value) :
    ∃ b w, GoogleSearch.main env v = outputJson b w :=
  mainTail_shape _

/-- Characterisation of a successful `_call_module` run: either no tool
was invoked and the result is the unknown-function envelope, or a
registered tool was invoked on some input and its result returned. -/
theorem call_module_ok_cases (tools : List (String × (Value → Value)))
    (d u : Value) (r : CallResult)
    (h : call_module tools d u = .ok r) :
    r = ⟨none, unknownEnv⟩ ∨
    ∃ name f inp, lookupTool tools name = some f ∧ r = ⟨some (name, inp), f inp⟩ := by
  unfold call_module at h
  cases htool : pyGet d "tool" .vNone with
  | error e => simp [htool, bind, Except.bind] at h
  | ok tn =>
    cases hinp : pyGet d "input" u with
    | error e => simp [htool, hinp, bind, Except.bind] at h
    | ok inp =>
      simp only [htool, hinp, bind, Except.bind] at h
      cases tn with
      | vStr name =>
        cases hf : lookupTool tools name with
        | some f =>
          simp only [hf, pure, Except.pure, Except.ok.injEq] at h
          exact .inr ⟨name, f, inp, hf, h.symm⟩
        | none =>
          simp only [hf, pure, Except.pure, Except.ok.injEq] at h
          exact .inl h.symm
      | vNone =>
        simp only [hashable, pure, Except.pure, Except.ok.injEq, if_true] at h
        exact .inl h.symm
      | vBool b =>
        simp only [hashable, pure, Except.pure, Except.ok.injEq, if_true] at h
        exact .inl h.symm
      | vInt n =>
        simp only [hashable, pure, Except.pure, Except.ok.injEq, if_true] at h
        exact .inl h.symm
      | vList xs =>
        simp [hashable, pure, Except.pure] at h
      | vDict xs =>
        simp [hashable, pure, Except.pure] at h

/-- The only callables in the registry are the three module entry
points. -/
theorem lookupTool_TOOLS (env : Env) (name : String) (f : Value → Value)
    (h : lookupTool (TOOLS env) name = some f) :
    f = Weather.main env ∨ f = News.main env ∨ f = GoogleSearch.main env := by
  unfold lookupTool TOOLS at h
  by_cases h1 : ("get_weather" == name)
  · simp [List.find?, h1] at h
    exact .inl h.symm
  · by_cases h2 : ("get_news" == name)
    · simp [List.find?, h1, h2] at h
      exact .inr (.inl h.symm)
    · by_cases h3 : ("get_search" == name)
      · simp [List.find?, h1, h2, h3] at h
        exact .inr (.inr h.symm)
      · simp [List.find?, h1, h2, h3] at h

/-- C4: for every path through dispatch — successful tool invocation,
upstream tool failure, unknown tool name, and even a raised membership
error caught by the wrapper — the returned value carries a boolean
`success` field. -/
theorem dispatch_success_field (env : Env) (d u : Value) :
    ∃ b, successField (dispatch (TOOLS env) d u).result = some (.vBool b) := by
  unfold dispatch
  cases hcm : call_module (TOOLS env) d u with
  | error e =>
    exact ⟨false, by simp [successField, errEnvelope, dictGet, List.find?]⟩
  | ok r =>
    rcases call_module_ok_cases (TOOLS env) d u r hcm with hr | ⟨name, f, inp, hf, hr⟩
    · subst hr
      exact ⟨false, by simp [successField, unknownEnv, dictGet, List.find?]⟩
    · subst hr
      have hshape : ∃ b w, f inp = outputJson b w := by
        rcases lookupTool_TOOLS env name f hf with h | h | h
        · exact h ▸ weatherMain_shape env inp
        · exact h ▸ newsMain_shape env inp
        · exact h ▸ googleMain_shape env inp
      obtain ⟨b, w, hbw⟩ := hshape
      exact ⟨b, by simp [hbw, successField, outputJson, dictGet, List.find?]⟩

/-- C9: a request with no `input` key at all is dispatched with the
fallback input. -/
theorem dispatch_fallback_input (env : Env) (l : List (String × Value))
    (u : Value) (name : String) (f : Value → Value)
    (htool : dictGet l "tool" = some (.vStr name))
    (hinput : dictGet l "input" = none)
    (hf : lookupTool (TOOLS env) name = some f) :
    dispatch (TOOLS env) (.vDict l) u = ⟨some (name, u), f u⟩ := by
  simp [dispatch, call_module, pyGet, htool, hinput, hf, bind, Except.bind,
    pure, Except.pure]

/-- Every exception raised by the body of `Weather._format_data` is
benign: each comes from a key/index access or `.lower()`. -/
theorem format_core_benign (x : Value) (e : PyErr)
    (h : Weather.format_core x = .error e) : benign e := by
  unfold Weather.format_core at h
  iterate 19
    rcases bind_error_inv _ _ _ h with h1 | ⟨_, -, h⟩
    · first
        | exact getItem_benign _ _ _ h1
        | exact getIndex_benign _ _ _ h1
        | exact pyGet_benign _ _ _ _ h1
        | exact strLower_benign _ _ h1
  simp [pure, Except.pure] at h

/-- Inversion of a successful `Except.map`. -/
theorem map_ok_inv {α β : Type} (m : Except PyErr α) (f : α → β) (v : β)
    (h : m.map f = .ok v) : ∃ a, m = .ok a ∧ v = f a := by
  cases m with
  | error e => simp [Except.map] at h
  | ok a => exact ⟨a, rfl, by simpa [Except.map] using h.symm⟩

/-- Error inversion of `Except.map`. -/
theorem map_error_inv {α β : Type} (m : Except PyErr α) (f : α → β) (e : PyErr)
    (h : m.map f = .error e) : m = .error e := by
  cases m with
  | error e2 => simpa [Except.map] using h
  | ok a => simp [Except.map] at h

/-- Every exception raised by `Weather._format_data` is benign. -/
theorem format_data_benign (x : Value) (e : PyErr)
    (h : Weather.format_data x = .error e) : benign e :=
  format_core_benign x e (map_error_inv _ _ _ h)

/-- Every exception raised by `News._filter_data` is benign. -/
theorem filter_data_benign (x : Value) (e : PyErr)
    (h : News.filter_data x = .error e) : benign e := by
  unfold News.filter_data at h
  rcases bind_error_inv _ _ _ h with h1 | ⟨arts, -, h⟩
  · exact getItem_benign _ _ _ h1
  cases arts <;> simp at h
  case vList xs => exact joinStrs_benign _ _ _ (map_error_inv _ _ _ h)
  all_goals exact h.symm ▸ (by unfold benign; decide)

/-- Every exception raised by `GoogleSearch._scrape_webpage` is benign. -/
theorem scrape_benign (env : Env) (x : Value) (e : PyErr)
    (h : GoogleSearch.scrape_webpage env x = .error e) : benign e := by
  cases x <;> simp [GoogleSearch.scrape_webpage] at h
  case vStr s =>
    split at h
    · simp at h
      exact h.symm ▸ (by unfold benign; decide)
    · simp at h
  all_goals exact h.symm ▸ (by unfold benign; decide)

/-- A successful `_scrape_webpage` returns a string. -/
theorem scrape_ok_str (env : Env) (x v : Value)
    (h : GoogleSearch.scrape_webpage env x = .ok v) : ∃ s, v = .vStr s := by
  cases x <;> simp [GoogleSearch.scrape_webpage] at h
  case vStr s =>
    split at h
    · simp at h
    · simp at h
      exact ⟨_, h.symm⟩

/-- Under a well-behaved environment, every exception raised by
`GoogleSearch._get_webpage` is benign (its only raise is the HTTP
call). -/
theorem get_webpage_benign (env : Env) (link : Value) (e : PyErr)
    (henv : EnvOk env) (h : GoogleSearch.get_webpage env link = .error e) :
    benign e := by
  unfold GoogleSearch.get_webpage at h
  rcases bind_error_inv _ _ _ h with h1 | ⟨r, -, h⟩
  · exact henv.1 _ _ h1
  · simp [pure, Except.pure] at h

/-- Under a well-behaved environment, every exception raised by
`News._fetch_news` is benign: the HTTP raise and the `.json()` raise are
benign by assumption, and the non-200 `RuntimeError` message starts with
`News API Error`. -/
theorem fetch_news_benign (env : Env) (topic : Value) (e : PyErr)
    (henv : EnvOk env) (h : News.fetch_news env topic = .error e) :
    benign e := by
  unfold News.fetch_news at h
  rcases bind_error_inv _ _ _ h with h1 | ⟨r, hr, h⟩
  · exact henv.1 _ _ h1
  by_cases hst : r.status == 200
  · rw [if_pos hst] at h
    cases hj : r.jsonResult with
    | ok j => rw [hj] at h; simp [pure, Except.pure] at h
    | error e2 =>
      rw [hj] at h
      injection h with he
      exact he ▸ henv.2 _ _ hr _ hj
  · rw [if_neg hst] at h
    injection h with he
    have hmsg := congrArg PyErr.msg he
    simp only at hmsg
    unfold benign
    rw [← hmsg]
    refine ne_unknown_of_head _ 'N' ?_ (by decide)
    repeat
      first
        | rfl
        | apply head_append

/-- Under a well-behaved environment, every exception raised by
`GoogleSearch._do_google_search` is benign. -/
theorem do_google_benign (env : Env) (topic : Value) (e : PyErr)
    (henv : EnvOk env) (h : GoogleSearch.do_google_search env topic = .error e) :
    benign e := by
  unfold GoogleSearch.do_google_search at h
  rcases bind_error_inv _ _ _ h with h1 | ⟨r, hr, h⟩
  · exact henv.1 _ _ h1
  by_cases hst : r.status == 200
  · rw [if_pos hst] at h
    rcases bind_error_inv _ _ _ h with h1 | ⟨j, hj, h⟩
    · exact henv.2 _ _ hr _ h1
    rcases bind_error_inv _ _ _ h with h1 | ⟨items, -, h⟩
    · exact getItem_benign _ _ _ h1
    rcases bind_error_inv _ _ _ h with h1 | ⟨first0, -, h⟩
    · exact getIndex_benign _ _ _ h1
    rcases bind_error_inv _ _ _ h with h1 | ⟨link, -, h⟩
    · exact getItem_benign _ _ _ h1
    simp [pure, Except.pure] at h
  · rw [if_neg hst] at h
    injection h with he
    have hmsg := congrArg PyErr.msg he
    simp only at hmsg
    unfold benign
    rw [← hmsg]
    refine ne_unknown_of_head _ 'E' ?_ (by decide)
    repeat
      first
        | rfl
        | apply head_append

/-- Inversion for a successful monadic bind over `Except`. -/
theorem bind_ok_inv {α β : Type} (x : Except PyErr α)
    (f : α → Except PyErr β) (v : β) (h : x >>= f = .ok v) :
    ∃ a, x = .ok a ∧ f a = .ok v := by
  cases x with
  | error e => simp [bind, Except.bind] at h
  | ok a => exact ⟨a, rfl, by simpa [bind, Except.bind] using h⟩

/-- A successful `_filter_data` returns a string. -/
theorem filter_data_ok_str (x v : Value) (h : News.filter_data x = .ok v) :
    ∃ s, v = .vStr s := by
  unfold News.filter_data at h
  rcases bind_ok_inv _ _ _ h with ⟨arts, -, h⟩
  cases arts <;> simp at h
  case vList xs =>
    obtain ⟨s, -, hs⟩ := map_ok_inv _ _ _ h
    exact ⟨s, hs⟩

/-- A successful `_fetch_news` returns either the joined article text or
the error object of the wrapped `_filter_data` with a benign message. -/
theorem fetch_news_ok_cases (env : Env) (topic : Value) (v : Value)
    (h : News.fetch_news env topic = .ok v) :
    (∃ s, v = .vStr s) ∨ (∃ e, v = errEnvelope "_filter_data" e ∧ benign e) := by
  unfold News.fetch_news at h
  rcases bind_ok_inv _ _ _ h with ⟨r, hr, h⟩
  by_cases hst : r.status == 200
  · rw [if_pos hst] at h
    cases hj : r.jsonResult with
    | error e2 => rw [hj] at h; simp at h
    | ok j =>
      rw [hj] at h
      simp [pure, Except.pure] at h
      cases hf : News.filter_data j with
      | ok w =>
        left
        obtain ⟨s, hs⟩ := filter_data_ok_str j w hf
        exact ⟨s, by rw [← h]; simp [safe_run, hf, hs]⟩
      | error e2 =>
        right
        exact ⟨e2, by rw [← h]; simp [safe_run, hf], filter_data_benign _ _ hf⟩
  · rw [if_neg hst] at h
    simp at h

/-- A successful `_get_webpage` returns either the scraped text or the
error object of the wrapped `_scrape_webpage` with a benign message. -/
theorem get_webpage_ok_cases (env : Env) (link w : Value)
    (h : GoogleSearch.get_webpage env link = .ok w) :
    (∃ s, w = .vStr s) ∨ (∃ e, w = errEnvelope "_scrape_webpage" e ∧ benign e) := by
  unfold GoogleSearch.get_webpage at h
  rcases bind_ok_inv _ _ _ h with ⟨r, -, h⟩
  simp [pure, Except.pure] at h
  cases hs : GoogleSearch.scrape_webpage env (.vStr r.content) with
  | ok u =>
    left
    obtain ⟨s, hs2⟩ := scrape_ok_str _ _ _ hs
    exact ⟨s, by rw [← h]; simp [safe_run, hs, hs2]⟩
  | error e =>
    right
    exact ⟨e, by rw [← h]; simp [safe_run, hs], scrape_benign _ _ _ hs⟩

/-- Under a well-behaved environment, a successful `_do_google_search`
returns the scraped text or a wrapped error object with a benign
message. -/
theorem do_google_ok_cases (env : Env) (topic v : Value) (henv : EnvOk env)
    (h : GoogleSearch.do_google_search env topic = .ok v) :
    (∃ s, v = .vStr s) ∨
    (∃ e, v = errEnvelope "_get_webpage" e ∧ benign e) ∨
    (∃ e, v = errEnvelope "_scrape_webpage" e ∧ benign e) := by
  unfold GoogleSearch.do_google_search at h
  rcases bind_ok_inv _ _ _ h with ⟨r, hr, h⟩
  by_cases hst : r.status == 200
  · rw [if_pos hst] at h
    rcases bind_ok_inv _ _ _ h with ⟨j, hj, h⟩
    rcases bind_ok_inv _ _ _ h with ⟨items, -, h⟩
    rcases bind_ok_inv _ _ _ h with ⟨first0, -, h⟩
    rcases bind_ok_inv _ _ _ h with ⟨link, -, h⟩
    simp [pure, Except.pure] at h
    cases hw : GoogleSearch.get_webpage env link with
    | error e2 =>
      right; left
      exact ⟨e2, by rw [← h]; simp [safe_run, hw],
        get_webpage_benign _ _ _ henv hw⟩
    | ok w =>
      rcases get_webpage_ok_cases env link w hw with ⟨s, hs⟩ | ⟨e2, he2, hb⟩
      · left
        exact ⟨s, by rw [← h]; simp [safe_run, hw, hs]⟩
      · right; right
        exact ⟨e2, by rw [← h]; simp [safe_run, hw, he2], hb⟩
  · rw [if_neg hst] at h
    simp at h

/-- `mainTail` on a `safe_run` error object always builds the false
envelope carrying the error message string. -/
theorem mainTail_errEnvelope (name : String) (e : PyErr) :
    mainTail (errEnvelope name e) = outputJson false (.vStr e.msg) := rfl

/-- `_format_data` applied to a `safe_run` error object raises the
`KeyError` for `location` (the error object has no such key). -/
theorem format_data_errEnvelope (name : String) (e : PyErr) :
    Weather.format_data (errEnvelope name e) = .error (keyError "location") := rfl

/-- `safe_run` of an operation that completed normally is its result. -/
theorem safe_run_eq_ok {α : Type} (funcName : String)
    (func : α → Except PyErr Value) (x : α) (v : Value)
    (h : func x = .ok v) : safe_run funcName func x = v := by
  simp [safe_run, h]

/-- `safe_run` of an operation that raised is the wrapper error object. -/
theorem safe_run_eq_err {α : Type} (funcName : String)
    (func : α → Except PyErr Value) (x : α) (e : PyErr)
    (h : func x = .error e) : safe_run funcName func x = errEnvelope funcName e := by
  simp [safe_run, h]

/-- A tool result that is a plain string, or a wrapper error object with
a benign message, never coincides with the unknown-tool sentinel
envelope. -/
theorem mainTail_ne_unknown_of (data : Value)
    (h : (∃ s, data = .vStr s) ∨ (∃ nm e, data = errEnvelope nm e ∧ benign e)) :
    mainTail data ≠ unknownEnv := by
  rcases h with ⟨s, rfl⟩ | ⟨nm, e, rfl, hb⟩
  · intro hc
    simp [mainTail, outputJson, unknownEnv] at hc
  · rw [mainTail_errEnvelope]
    intro hc
    simp [outputJson, unknownEnv] at hc
    exact hb hc

/-- `Weather.main` never returns the unknown-tool sentinel envelope: its
success payload is a string, and its failure messages are key/type error
texts. -/
theorem weatherMain_ne_unknown (env : Env) (loc : Value) :
    Weather.main env loc ≠ unknownEnv := by
  show mainTail (safe_run "_format_data" Weather.format_data
    (safe_run "_fetch_weather" (Weather.fetch_weather env) loc)) ≠ unknownEnv
  apply mainTail_ne_unknown_of
  cases hfd : Weather.format_data
      (safe_run "_fetch_weather" (Weather.fetch_weather env) loc) with
  | ok v =>
    obtain ⟨s, -, hs⟩ := map_ok_inv _ _ _ hfd
    left
    exact ⟨s, by rw [safe_run_eq_ok _ _ _ _ hfd, hs]⟩
  | error e =>
    right
    exact ⟨"_format_data", e, by rw [safe_run_eq_err _ _ _ _ hfd],
      format_data_benign _ _ hfd⟩

/-- Under a well-behaved environment, `News.main` never returns the
unknown-tool sentinel envelope. -/
theorem newsMain_ne_unknown (env : Env) (topic : Value) (henv : EnvOk env) :
    News.main env topic ≠ unknownEnv := by
  show mainTail (safe_run "_fetch_news" (News.fetch_news env) topic) ≠ unknownEnv
  apply mainTail_ne_unknown_of
  cases hf : News.fetch_news env topic with
  | error e =>
    right
    exact ⟨"_fetch_news", e, by simp [safe_run, hf],
      fetch_news_benign _ _ _ henv hf⟩
  | ok v =>
    rcases fetch_news_ok_cases _ _ _ hf with ⟨s, hs⟩ | ⟨e, he, hb⟩
    · left
      exact ⟨s, by simp [safe_run, hf, hs]⟩
    · right
      exact ⟨"_filter_data", e, by simp [safe_run, hf, he], hb⟩

/-- Under a well-behaved environment, `GoogleSearch.main` never returns
the unknown-tool sentinel envelope. -/
theorem googleMain_ne_unknown (env : Env) (q : Value) (henv : EnvOk env) :
    GoogleSearch.main env q ≠ unknownEnv := by
  show mainTail (safe_run "_do_google_search"
    (GoogleSearch.do_google_search env) q) ≠ unknownEnv
  apply mainTail_ne_unknown_of
  cases hd : GoogleSearch.do_google_search env q with
  | error e =>
    right
    exact ⟨"_do_google_search", e, by simp [safe_run, hd],
      do_google_benign _ _ _ henv hd⟩
  | ok v =>
    rcases do_google_ok_cases _ _ _ henv hd with ⟨s, hs⟩ | ⟨e, he, hb⟩ | ⟨e, he, hb⟩
    · left
      exact ⟨s, by simp [safe_run, hd, hs]⟩
    · right
      exact ⟨"_get_webpage", e, by simp [safe_run, hd, he], hb⟩
    · right
      exact ⟨"_scrape_webpage", e, by simp [safe_run, hd, he], hb⟩

/-- No registered tool ever returns the unknown-tool sentinel envelope
under a well-behaved environment. -/
theorem TOOLS_ne_unknown (env : Env) (henv : EnvOk env) (name : String)
    (f : Value → Value) (hf : lookupTool (TOOLS env) name = some f)
    (v : Value) : f v ≠ unknownEnv := by
  rcases lookupTool_TOOLS env name f hf with h | h | h
  · exact h ▸ weatherMain_ne_unknown env v
  · exact h ▸ newsMain_ne_unknown env v henv
  · exact h ▸ googleMain_ne_unknown env v henv

/-- The all-connections-down environment is well behaved. -/
theorem envFail_ok : EnvOk envFail := by
  constructor
  · intro v e h
    simp [envFail] at h
    rw [← h]
    decide
  · intro v r h
    simp [envFail] at h

/-- C2: for a request whose tool name is a string, dispatch returns the
envelope `success=false, data=unknown function called` exactly when the
name is not a key of the registry; in that case no tool is invoked; and
for every registered name, dispatch invokes that tool on the chosen
input and forwards its result (which, tools being well behaved under
`EnvOk`, is never the unknown-function envelope). -/
theorem dispatch_unknown_characterisation (env : Env)
    (l : List (String × Value)) (u : Value) (name : String)
    (henv : EnvOk env)
    (htool : dictGet l "tool" = some (.vStr name)) :
    ((dispatch (TOOLS env) (.vDict l) u).result = unknownEnv ↔
      lookupTool (TOOLS env) name = none) ∧
    (lookupTool (TOOLS env) name = none →
      (dispatch (TOOLS env) (.vDict l) u).invoked = none) ∧
    (∀ f, lookupTool (TOOLS env) name = some f →
      (dispatch (TOOLS env) (.vDict l) u).invoked =
        some (name, (dictGet l "input").getD u) ∧
      (dispatch (TOOLS env) (.vDict l) u).result =
        f ((dictGet l "input").getD u)) := by
  cases hf : lookupTool (TOOLS env) name with
  | none =>
    have hdisp : dispatch (TOOLS env) (.vDict l) u = ⟨none, unknownEnv⟩ := by
      simp [dispatch, call_module, pyGet, htool, hf, bind, Except.bind,
        pure, Except.pure]
    exact ⟨⟨fun _ => rfl, fun _ => by rw [hdisp]⟩,
      fun _ => by rw [hdisp], fun f hff => absurd hff (by simp)⟩
  | some f =>
    have hdisp : dispatch (TOOLS env) (.vDict l) u =
        ⟨some (name, (dictGet l "input").getD u),
         f ((dictGet l "input").getD u)⟩ := by
      simp [dispatch, call_module, pyGet, htool, hf, bind, Except.bind,
        pure, Except.pure]
    refine ⟨⟨fun hu => ?_, fun hnone => absurd hnone (by simp)⟩,
      fun hnone => absurd hnone (by simp), fun g hg => ?_⟩
    · exfalso
      rw [hdisp] at hu
      exact TOOLS_ne_unknown env henv name f hf _ hu
    · injection hg with hg2
      subst hg2
      rw [hdisp]
      exact ⟨rfl, rfl⟩

/-- Witness for C2: the unregistered name `bogus` yields the
unknown-function envelope with no tool invoked; the registered
`get_weather` invokes the weather tool and does not yield it. -/
theorem dispatch_unknown_characterisation_witness :
    (dispatch (TOOLS envFail) (.vDict [("tool", .vStr "bogus")])
      (.vStr "x")).result = unknownEnv ∧
    (dispatch (TOOLS envFail) (.vDict [("tool", .vStr "bogus")])
      (.vStr "x")).invoked = none ∧
    (dispatch (TOOLS envFail)
      (.vDict [("tool", .vStr "get_weather"), ("input", .vStr "paris")])
      (.vStr "")).invoked = some ("get_weather", .vStr "paris") ∧
    (dispatch (TOOLS envFail)
      (.vDict [("tool", .vStr "get_weather"), ("input", .vStr "paris")])
      (.vStr "")).result ≠ unknownEnv :=
  ⟨(dispatch_unknown_characterisation envFail [("tool", .vStr "bogus")]
      (.vStr "x") "bogus" envFail_ok rfl).1.mpr rfl,
   (dispatch_unknown_characterisation envFail [("tool", .vStr "bogus")]
      (.vStr "x") "bogus" envFail_ok rfl).2.1 rfl,
   ((dispatch_unknown_characterisation envFail
      [("tool", .vStr "get_weather"), ("input", .vStr "paris")]
      (.vStr "") "get_weather" envFail_ok rfl).2.2
      (Weather.main envFail) rfl).1,
   fun hc => by
     have h2 := (dispatch_unknown_characterisation envFail
        [("tool", .vStr "get_weather"), ("input", .vStr "paris")]
        (.vStr "") "get_weather" envFail_ok rfl).1.mp hc
     simp [lookupTool, TOOLS, List.find?] at h2⟩

/-- C6: for each of the three tools, when the underlying fetch pipeline
fails — a raised fetch (network error, non-2xx status, `.json()` failure)
or a payload that makes the formatting/filtering/scraping step raise —
the failure is contained by the wrapped helpers and the tool entry point
returns the envelope `success=false, data=<message string>`. -/
theorem tool_failure_envelopes (env : Env) (loc topic q : Value) :
    (weatherFails env loc →
      ∃ m, Weather.main env loc = outputJson false (.vStr m)) ∧
    (newsFails env topic →
      ∃ m, News.main env topic = outputJson false (.vStr m)) ∧
    (googleFails env q →
      ∃ m, GoogleSearch.main env q = outputJson false (.vStr m)) := by
  refine ⟨?_, ?_, ?_⟩
  · intro h
    unfold Weather.main
    rcases h with ⟨e, he⟩ | ⟨j, hj, e, he⟩
    · have h1 : safe_run "_fetch_weather" (Weather.fetch_weather env) loc =
          errEnvelope "_fetch_weather" e := by simp [safe_run, he]
      have h3 : safe_run "_format_data" Weather.format_data
          (errEnvelope "_fetch_weather" e) =
          errEnvelope "_format_data" (keyError "location") := by
        simp [safe_run, format_data_errEnvelope]
      simp only [h1, h3, mainTail_errEnvelope]
      exact ⟨(keyError "location").msg, rfl⟩
    · have h1 : safe_run "_fetch_weather" (Weather.fetch_weather env) loc = j := by
        simp [safe_run, hj]
      have h3 : safe_run "_format_data" Weather.format_data j =
          errEnvelope "_format_data" e := by simp [safe_run, he]
      simp only [h1, h3, mainTail_errEnvelope]
      exact ⟨e.msg, rfl⟩
  · intro h
    unfold News.main
    rcases h with ⟨e, he⟩ | ⟨e, he⟩
    · have h1 : safe_run "_fetch_news" (News.fetch_news env) topic =
          errEnvelope "_fetch_news" e := by simp [safe_run, he]
      simp only [h1, mainTail_errEnvelope]
      exact ⟨e.msg, rfl⟩
    · have h1 : safe_run "_fetch_news" (News.fetch_news env) topic =
          errEnvelope "_filter_data" e := by simp [safe_run, he]
      simp only [h1, mainTail_errEnvelope]
      exact ⟨e.msg, rfl⟩
  · intro h
    unfold GoogleSearch.main
    rcases h with ⟨e, he⟩ | ⟨e, he⟩ | ⟨e, he⟩
    · have h1 : safe_run "_do_google_search" (GoogleSearch.do_google_search env) q =
          errEnvelope "_do_google_search" e := by simp [safe_run, he]
      simp only [h1, mainTail_errEnvelope]
      exact ⟨e.msg, rfl⟩
    · have h1 : safe_run "_do_google_search" (GoogleSearch.do_google_search env) q =
          errEnvelope "_get_webpage" e := by simp [safe_run, he]
      simp only [h1, mainTail_errEnvelope]
      exact ⟨e.msg, rfl⟩
    · have h1 : safe_run "_do_google_search" (GoogleSearch.do_google_search env) q =
          errEnvelope "_scrape_webpage" e := by simp [safe_run, he]
      simp only [h1, mainTail_errEnvelope]
      exact ⟨e.msg, rfl⟩

/-- Witness for C6: in the all-connections-down environment every tool
returns a false envelope with a message string. -/
theorem tool_failure_envelopes_witness :
    (∃ m, Weather.main envFail (.vStr "paris") = outputJson false (.vStr m)) ∧
    (∃ m, News.main envFail (.vStr "x") = outputJson false (.vStr m)) ∧
    (∃ m, GoogleSearch.main envFail (.vStr "y") = outputJson false (.vStr m)) :=
  ⟨(tool_failure_envelopes envFail (.vStr "paris") (.vStr "x") (.vStr "y")).1
      (.inl ⟨⟨"ConnectionError", "Traceback (most recent call last): ConnectionError"⟩, rfl⟩),
   (tool_failure_envelopes envFail (.vStr "paris") (.vStr "x") (.vStr "y")).2.1
      (.inl ⟨⟨"ConnectionError", "Traceback (most recent call last): ConnectionError"⟩, rfl⟩),
   (tool_failure_envelopes envFail (.vStr "paris") (.vStr "x") (.vStr "y")).2.2
      (.inl ⟨⟨"ConnectionError", "Traceback (most recent call last): ConnectionError"⟩, rfl⟩)⟩

/-- Witness for C9: `dispatch(tool=get_news, fallback=terrorist)` invokes
the news tool with `terrorist`. -/
theorem dispatch_fallback_input_witness :
    dispatch (TOOLS envFail) (.vDict [("tool", .vStr "get_news")])
      (.vStr "terrorist") =
      ⟨some ("get_news", .vStr "terrorist"), News.main envFail (.vStr "terrorist")⟩ :=
  dispatch_fallback_input envFail _ _ "get_news" _ rfl rfl rfl

/-- C5: on the specification example text, extraction finds and parses
the embedded tool call `tool=get_weather, input=delhi` and dispatches it
(the weather tool is invoked with `delhi`); and on every generated text in
which the pattern finds no match, no tool is invoked and the entire text
is the direct conversational reply. -/
theorem extract_json_routes (env : Env) (g u : String) :
    (reSearch toolPattern g.data = none →
      extractRun (TOOLS env) g u = .normal (.reply g)) ∧
    ∃ c, extractRun (TOOLS env) demoGenerated u =
        .normal (.dispatched demoRequest c) ∧
      c.invoked = some ("get_weather", .vStr "delhi") := by
  constructor
  · intro hnone
    have hbody : extract_json (TOOLS env) g u = .ok (.reply g) := by
      unfold extract_json
      rw [hnone]
      rfl
    simp [extractRun, hbody]
  · obtain ⟨b, w, hbw⟩ := weatherMain_shape env (.vStr "delhi")
    refine ⟨⟨some ("get_weather", .vStr "delhi"),
      Weather.main env (.vStr "delhi")⟩, ?_, rfl⟩
    have e1 : extract_json (TOOLS env) demoGenerated u =
        (do let _ ← getItem (Weather.main env (.vStr "delhi")) "success"
            let _ ← getItem (Weather.main env (.vStr "delhi")) "data"
            pure (ExtractResult.dispatched demoRequest
              ⟨some ("get_weather", .vStr "delhi"),
               Weather.main env (.vStr "delhi")⟩)) := rfl
    unfold extractRun
    rw [e1, hbw]
    simp [getItem, outputJson, dictGet, List.find?, bind, Except.bind,
      pure, Except.pure]

/-- Witness for C5: a concrete no-match text is replied verbatim, and the
example text dispatches the weather tool with `delhi`. -/
theorem extract_json_routes_witness :
    reSearch toolPattern ("hello there").data = none ∧
    extractRun (TOOLS envFail) "hello there" "x" = .normal (.reply "hello there") ∧
    ∃ c, extractRun (TOOLS envFail) demoGenerated "x" =
        .normal (.dispatched demoRequest c) ∧
      c.invoked = some ("get_weather", .vStr "delhi") :=
  ⟨rfl, (extract_json_routes envFail "hello there" "x").1 rfl,
   (extract_json_routes envFail "hello there" "x").2⟩

/-- C7 counterexample: on a text whose matched region is not valid JSON,
the parse failure does not propagate uncaught and is not a silent
plain-text fallback: the `safe_run` wrapper installed on `_extract_json`
at construction catches it and converts it into the wrapper error
envelope. -/
theorem extract_malformed_counterexample :
    extractRun (TOOLS envFail) badGenerated "u" =
      .caught (errEnvelope "_extract_json"
        (jsonError "Expecting comma delimiter")) := rfl

/-- C7 as amended: when the pattern matches but the matched region is
invalid JSON, `json.loads` raises inside `_extract_json`; the blanket
`safe_run` wrapper on `_extract_json` catches the failure and the call
returns the `success/error/function/trace` error object — no tool is
dispatched and the text is not treated as a plain reply. -/
theorem extract_malformed_caught (tools : List (String × (Value → Value)))
    (g u : String) (m : List Char) (e : PyErr)
    (hm : reSearch toolPattern g.data = some m)
    (hj : jsonLoads (String.mk m) = .error e) :
    extractRun tools g u = .caught (errEnvelope "_extract_json" e) := by
  have hbody : extract_json tools g u = .error e := by
    unfold extract_json
    rw [hm]
    simp [hj, bind, Except.bind]
  simp [extractRun, hbody]

/-- Witness for the amended C7 at the concrete malformed text. -/
theorem extract_malformed_caught_witness :
    extractRun (TOOLS envChatOk) badGenerated "y" =
      .caught (errEnvelope "_extract_json"
        (jsonError "Expecting comma delimiter")) :=
  extract_malformed_caught (TOOLS envChatOk) badGenerated "y"
    ("\x7b\"tool\": \"a\" oops\x7d").data
    (jsonError "Expecting comma delimiter") rfl rfl

/-- C8 counterexample: the interactive loop also terminates without the
input `break`: when the routing model call raises (here: a connection
error), the exception escapes the loop body and ends the loop after a
single non-`break` input. -/
theorem run_loop_terminates_without_break :
    runRaw envFail (TOOLS envFail) ["hello"] =
      .raised ⟨"ChatConnectionError",
        "Traceback (most recent call last): ConnectionError"⟩ ∧
    "hello" ≠ "break" :=
  ⟨rfl, by decide⟩

/-- C8 as amended: the loop stops on the literal input `break` (reaching
it past any earlier inputs whose model calls succeed, whatever the
extraction outcome); a `brk` exit only ever happens when `break` occurs in
the input stream; but an exception raised directly in the loop body — the
routing `ollama.chat` call failing, or `input()` raising `EOFError` at end
of input — also terminates the loop (it is then caught by the `safe_run`
wrapper on `run`, so the process ends normally instead of crashing). -/
theorem run_loop_exit (env : Env) (tools : List (String × (Value → Value))) :
    (∀ inputs, runRaw env tools inputs = .brk → "break" ∈ inputs) ∧
    (∀ i rest t, i ≠ "break" → env.chat i = .ok t →
      runRaw env tools (i :: rest) = runRaw env tools rest) ∧
    (∀ pre rest, (∀ i ∈ pre, i ≠ "break" ∧ ∃ t, env.chat i = .ok t) →
      runRaw env tools (pre ++ "break" :: rest) = .brk) ∧
    (∀ i rest e, i ≠ "break" → env.chat i = .error e →
      runRaw env tools (i :: rest) = .raised e) ∧
    runRaw env tools [] = .raised eofError := by
  have runRaw_cons : ∀ i rest, runRaw env tools (i :: rest) =
      if i = "break" then .brk
      else
        match env.chat i with
        | .error e => .raised e
        | .ok _ => runRaw env tools rest := fun i rest => rfl
  refine ⟨?_, ?_, ?_, ?_, rfl⟩
  · intro inputs
    induction inputs with
    | nil => intro h; simp [runRaw] at h
    | cons i rest ih =>
      intro h
      by_cases hi : i = "break"
      · subst hi; exact List.mem_cons_self _ _
      · rw [runRaw_cons, if_neg hi] at h
        cases hc : env.chat i with
        | error e => rw [hc] at h; simp at h
        | ok t =>
          rw [hc] at h
          exact List.mem_cons_of_mem _ (ih h)
  · intro i rest t hi hc
    rw [runRaw_cons, if_neg hi, hc]
  · intro pre rest hpre
    induction pre with
    | nil =>
      rw [List.nil_append, runRaw_cons]
      simp
    | cons i pre ih =>
      obtain ⟨hi, t, ht⟩ := hpre i (List.mem_cons_self _ _)
      have step : runRaw env tools ((i :: pre) ++ "break" :: rest) =
          runRaw env tools (pre ++ "break" :: rest) := by
        rw [List.cons_append, runRaw_cons, if_neg hi, ht]
      rw [step]
      exact ih (fun j hj => hpre j (List.mem_cons_of_mem _ hj))
  · intro i rest e hi hc
    rw [runRaw_cons, if_neg hi, hc]

/-- Witness for the amended C8: with a working model the loop passes a
non-`break` input and stops at `break`; with a failing model it raises. -/
theorem run_loop_exit_witness :
    runRaw envChatOk (TOOLS envChatOk) ["hi", "break"] = .brk ∧
    runRaw envFail (TOOLS envFail) ["hello"] =
      .raised ⟨"ChatConnectionError",
        "Traceback (most recent call last): ConnectionError"⟩ :=
  ⟨(run_loop_exit envChatOk (TOOLS envChatOk)).2.2.1 ["hi"] []
      (by
        intro i hi
        simp at hi
        subst hi
        exact ⟨by decide, "hello there", rfl⟩),
   (run_loop_exit envFail (TOOLS envFail)).2.2.2.1 "hello" [] _ (by decide) rfl⟩

end EveModel

